import Mathlib

/-!
Verification development for the mcrouter fragment consisting of
`mcrouter/routes/KeySplitRoute.cpp` (the `makeKeySplitRoute` factory) and
`mcrouter/lib/network/test/MemcacheConnectionTest.cpp` (connection tests),
against the natural-language specification of the replica-splitting route
and the connection abstraction.

The factory `makeKeySplitRoute` is embedded directly from the C++ source.
Components whose code is not part of the fragment (the `KeySplitRoute.h`
dispatch logic, the `MemcacheConnection` implementations and the backend
server) are modelled from the specification; each such definition says so
in its doc comment.
-/

/-! ## folly::dynamic (JSON values), as used by the factory -/

/-- Embedding of `folly::dynamic`: a dynamically-typed JSON value.
Objects are association lists with unique keys (folly objects are maps). -/
inductive Dyn : Type where
  | null : Dyn
  | obj (fields : List (String × Dyn)) : Dyn
  | int (i : Int) : Dyn
  | bool (b : Bool) : Dyn
  | str (s : String) : Dyn
  | arr (elems : List Dyn) : Dyn

/-- `dynamic::isObject()`. -/
def Dyn.isObject : Dyn → Bool
  | .obj _ => true
  | _ => false

/-- `dynamic::isInt()`. -/
def Dyn.isInt : Dyn → Bool
  | .int _ => true
  | _ => false

/-- `dynamic::isBool()`. -/
def Dyn.isBool : Dyn → Bool
  | .bool _ => true
  | _ => false

/-- `dynamic::count(key)` on an object: 1 when the key is present, else 0. -/
def Dyn.count : Dyn → String → Nat
  | .obj fields, key => match fields.lookup key with
    | some _ => 1
    | none => 0
  | _, _ => 0

/-- `dynamic::operator[](key)` on an object with the key present
(every use in the factory is guarded by a `count` check). -/
def Dyn.getField : Dyn → String → Dyn
  | .obj fields, key => (fields.lookup key).getD .null
  | _, _ => .null

/-- `dynamic::getInt()`: the held int64 value (guarded by `isInt`). -/
def Dyn.getInt : Dyn → Int
  | .int i => i
  | _ => 0

/-- `dynamic::getBool()` (guarded by `isBool`). -/
def Dyn.getBool : Dyn → Bool
  | .bool b => b
  | _ => false

/-! ## makeKeySplitRoute (embedded from mcrouter/routes/KeySplitRoute.cpp) -/

/-- Modelled from the spec: `KeySplitRoute::kMinReplicaCount` is declared in
`KeySplitRoute.h`, which is not part of the fragment; its value 2 is fixed by
the spec (replica count in [2, 1000]) and by the factory's own error string
"there should at least be 2 replicas". -/
def kMinReplicaCount : Nat := 2

/-- Modelled from the spec: `KeySplitRoute::kMaxReplicaCount` is declared in
`KeySplitRoute.h`; its value 1000 is fixed by the spec and by the factory's
error string "there should no more than 1000 replicas". -/
def kMaxReplicaCount : Nat := 1000

/-- The C++ conversion `size_t replicas = json["replicas"].getInt()`:
an `int64_t` converted to the unsigned 64-bit `size_t`, wrapping modulo 2^64
(negative values wrap to large positive values). -/
def sizeTOfInt (i : Int) : Nat := (i % (2 ^ 64 : Int)).toNat

/-- The route-handle object built on success:
`MemcacheRouteHandle<KeySplitRoute>(factory.create(json["destination"]), replicas, all_sync)`.
`RH` abstracts the child route-handle type produced by the factory. -/
structure KeySplitRoute (RH : Type) : Type where
  destination : RH
  replicas : Nat
  allSync : Bool

/-- Embedding of `makeKeySplitRoute` from `KeySplitRoute.cpp`, instrumented:
the second component records every sub-configuration passed to
`factory.create`.  Each `checkLogic(cond, msg)` of the source is an
early-error branch (`checkLogic` throws a logic error carrying `msg` when
`cond` fails), in the source's order:
object shape, presence of `destination` / `replicas` / `all_sync`, integer
and boolean typing, the replica-count bounds, and only then
`factory.create(json["destination"])`. -/
def makeKeySplitRouteTraced {RH : Type} (create : Dyn → Except String RH)
    (json : Dyn) : Except String (KeySplitRoute RH) × List Dyn :=
  if json.isObject = false then
    (.error "KeySplitRoute should be an object", [])
  else if json.count "destination" = 0 then
    (.error "KeySplitRoute: no destination route", [])
  else if json.count "replicas" = 0 then
    (.error "KeySplitRoute: no replicas specified", [])
  else if json.count "all_sync" = 0 then
    (.error "KeySplitRoute: all_sync not specified", [])
  else if (json.getField "replicas").isInt = false then
    (.error "KeySplitRoute: replicas is not an integer", [])
  else if (json.getField "all_sync").isBool = false then
    (.error "KeySplitRoute: all_sync is not a boolean", [])
  else
    let replicas : Nat := sizeTOfInt (json.getField "replicas").getInt
    let all_sync : Bool := (json.getField "all_sync").getBool
    if replicas < kMinReplicaCount then
      (.error "KeySplitRoute: there should at least be 2 replicas", [])
    else if kMaxReplicaCount < replicas then
      (.error "KeySplitRoute: there should no more than 1000 replicas", [])
    else
      match create (json.getField "destination") with
      | .error e => (.error e, [json.getField "destination"])
      | .ok dest => (.ok ⟨dest, replicas, all_sync⟩, [json.getField "destination"])

/-- `makeKeySplitRoute` proper: the construction result (errors are the
thrown `checkLogic` logic errors). -/
def makeKeySplitRoute {RH : Type} (create : Dyn → Except String RH)
    (json : Dyn) : Except String (KeySplitRoute RH) :=
  (makeKeySplitRouteTraced create json).1

/-- Whether construction succeeded. -/
def Except.succeeded {ε α : Type} : Except ε α → Bool
  | .ok _ => true
  | .error _ => false

/-! ## Requests, replies and the backend store

The request/reply data model follows the spec's data model: an operation
kind with a logical key and optional payload; a reply is a result code with
an optional payload. -/

/-- Carbon result codes observed in the tests (`carbon::Result`):
`STORED`, `FOUND`, `NOT_FOUND`, and a local-error code used when a
connectivity fault is encoded as a reply. -/
inductive CarbonResult : Type where
  | stored : CarbonResult
  | found : CarbonResult
  | notFound : CarbonResult
  | localError : CarbonResult
deriving DecidableEq

/-- A request: a mutating `set key value` or a read-only `get key`
(`McSetRequest` / `McGetRequest` in the tests). -/
inductive Request : Type where
  | set (key : String) (value : String) : Request
  | get (key : String) : Request
deriving DecidableEq

/-- A reply: a result code plus optional payload
(`McSetReply` / `McGetReply`). -/
structure Reply : Type where
  result : CarbonResult
  value : Option String
deriving DecidableEq

/-- Modelled from the spec: the backend server's key-value state.  Backend
server behavior is out of scope of the fragment; the spec's end-to-end
scenarios assume a cache that stores on `set` and returns the stored value
on `get`.  Newest binding first. -/
abbrev Store : Type := List (String × String)

/-- Modelled from the spec: one backend serving step — `set` stores the
value and replies `STORED`; `get` replies `FOUND` with the stored payload,
or `NOT_FOUND` when the key is absent. -/
def memcacheBackendStep (req : Request) (st : Store) : Reply × Store :=
  match req with
  | .set k v => (⟨.stored, none⟩, (k, v) :: st)
  | .get k =>
    match st.lookup k with
    | some v => (⟨.found, some v⟩, st)
    | none => (⟨.notFound, none⟩, st)

/-! ## Connections (modelled from the spec)

`MemcacheExternalConnection`, `MemcacheInternalConnection` and
`MemcachePooledConnection` are exercised by the tests but their code is not
part of the fragment; they are modelled from the spec's §4.1 contract:
send one request, receive exactly one reply via the callback, faults
encoded as error-kind replies. -/

/-- Wire protocol of an endpoint (`mc_caret_protocol` / `mc_thrift_protocol`). -/
inductive Protocol : Type where
  | caret : Protocol
  | thrift : Protocol
deriving DecidableEq

/-- `ConnectionOptions(host, port, protocol)`: one physical endpoint. -/
structure ConnectionOptions : Type where
  host : String
  port : Nat
  protocol : Protocol
deriving DecidableEq

/-- Modelled from the spec: a non-pooled connection.  An external
connection binds directly to one endpoint; an internal connection resolves
a request through an embedded routing configuration, which for the caller
is indistinguishable from an external connection to the endpoint the route
selects. -/
inductive BaseConn : Type where
  | external (opts : ConnectionOptions) : BaseConn
  | internal (name : String) (resolved : ConnectionOptions) : BaseConn
deriving DecidableEq

/-- The endpoint a base connection ultimately talks to. -/
def BaseConn.target : BaseConn → ConnectionOptions
  | .external opts => opts
  | .internal _ resolved => resolved

/-- Modelled from the spec: a `MemcacheConnection` is a base connection or
a pooled wrapper over a fixed member list (`MemcachePooledConnection`). -/
inductive MemcacheConnection : Type where
  | base (c : BaseConn) : MemcacheConnection
  | pooled (members : List BaseConn) : MemcacheConnection
deriving DecidableEq

/-- Modelled from the spec: the behavior of the network and backend behind
an endpoint — it may serve the request, or fault (unreachable endpoint,
protocol mismatch, timeout).  A fault is a `String` description carried on
the `Except` error channel. -/
abbrev Backend : Type := ConnectionOptions → Request → Store → Except String (Reply × Store)

/-- Modelled from the spec: the local-error reply a connection delivers to
the callback when the underlying exchange faults — the fault never crosses
the callback channel as a thrown fault. -/
def localErrorReply : Reply := ⟨.localError, none⟩

/-- Modelled from the spec: one `sendRequestOne` on a base connection.
The first component is the list of callback (`onReply`) invocations this
call performs, the second the resulting backend store. -/
def sendBase (backend : Backend) (c : BaseConn) (req : Request) (st : Store) :
    List Reply × Store :=
  match backend c.target req st with
  | .ok (r, st') => ([r], st')
  | .error _ => ([localErrorReply], st)

/-- Modelled from the spec: `sendRequestOne` on any connection.  A pooled
connection selects one member per call via the selection policy (`sel`
abstracts the policy's choice; the member index is `sel` modulo the pool
size) and forwards the request to it unchanged; a pool is fixed-size and
never splits one request across two members. -/
def sendRequestOne (backend : Backend) (sel : Nat) :
    MemcacheConnection → Request → Store → List Reply × Store
  | .base c, req, st => sendBase backend c req st
  | .pooled members, req, st =>
    match members[sel % members.length]? with
    | some m => sendBase backend m req st
    | none => ([localErrorReply], st)

/-- Modelled from the spec: the single-server world of the end-to-end
scenarios — every endpoint reaches the same backend store (all test
connections target the same server), and the backend serves reliably. -/
def singleServerBackend : Backend := fun _ req st => .ok (memcacheBackendStep req st)

/-! ## ReplicaSplitRoute dispatch (modelled from the spec)

The dispatch logic lives in `KeySplitRoute.h`, which is not part of the
fragment; it is modelled from the spec's §4.3: reads select one replica
deterministically by a stable hash of the key modulo N; mutating requests
fan out to all N replica keys; the caller's reply is the primary's
(replica 0's) reply. -/

/-- Replica-splitting route state: `{replicaCount N, allSync}` (the
destination child handle is abstracted by the serving function below). -/
structure KeySplitConfig : Type where
  replicas : Nat
  allSync : Bool
deriving DecidableEq

/-- Modelled from the spec: the fixed replica-key separator
(`kMemcacheReplicaSeparator` in `KeySplitRoute.h`). -/
def kMemcacheReplicaSeparator : String := ":"

/-- Maps a decimal digit to its character. -/
def digitToChar (d : Nat) : Char := Char.ofNat (48 + d)

/-- Modelled from the spec: the stable decimal encoding of a replica index. -/
def natToDecimal (n : Nat) : String :=
  if n = 0 then "0" else String.mk (((Nat.digits 10 n).reverse).map digitToChar)

/-- Modelled from the spec: a replica key is
logical-key ++ separator ++ encoded index. -/
def replicaKey (key : String) (i : Nat) : String :=
  key ++ kMemcacheReplicaSeparator ++ natToDecimal i

/-- Modelled from the spec: a stable hash of the key — a deterministic pure
function of the key bytes. -/
def stableHash (key : String) : Nat :=
  key.data.foldl (fun h c => h * 31 + c.toNat) 5381

/-- Modelled from the spec: the replica index a read of `key` selects —
the stable hash of the key modulo the replica count. -/
def readReplicaIndex (n : Nat) (key : String) : Nat := stableHash key % n

/-- Modelled from the spec: the derived requests a read dispatches — a
single derived key for the selected replica index. -/
def keySplitReadDispatch (cfg : KeySplitConfig) (key : String) : List String :=
  [replicaKey key (readReplicaIndex cfg.replicas key)]

/-- Modelled from the spec: the derived requests a mutating operation
dispatches — one derived key per replica index 0..N-1, all to
`destination`. -/
def keySplitMutateDispatch (cfg : KeySplitConfig) (key : String) : List String :=
  (List.range cfg.replicas).map (replicaKey key)

/-- Modelled from the spec: the reply delivered to the caller of a mutating
operation, given the destination's reply to each derived key — the primary
(replica 0) reply, under both `allSync` policies. -/
def keySplitMutateReply (_cfg : KeySplitConfig) (serve : String → Reply) (key : String) :
    Reply :=
  serve (replicaKey key 0)

/-! ## Helper lemmas -/

/-- Value of the int64-to-size_t conversion on the int64 range. -/
theorem sizeTOfInt_int (i : Int) (hlo : -(2 ^ 64) ≤ i) (hhi : i < 2 ^ 64) :
    (sizeTOfInt i : Int) = if 0 ≤ i then i else i + 2 ^ 64 := by
  unfold sizeTOfInt
  split_ifs with h0
  · omega
  · omega

/-- Evaluation of the factory on a well-formed object: only the bound
checks and the factory call remain. -/
theorem makeKeySplitRouteTraced_wf {RH : Type} (create : Dyn → Except String RH)
    (d : Dyn) (i : Int) (b : Bool) :
    makeKeySplitRouteTraced create
        (.obj [("destination", d), ("replicas", .int i), ("all_sync", .bool b)]) =
      (if sizeTOfInt i < kMinReplicaCount then
        (.error "KeySplitRoute: there should at least be 2 replicas", [])
      else if kMaxReplicaCount < sizeTOfInt i then
        (.error "KeySplitRoute: there should no more than 1000 replicas", [])
      else match create d with
        | .error e => (.error e, [d])
        | .ok dest => (.ok ⟨dest, sizeTOfInt i, b⟩, [d])) := by
  rfl

/-- Distinct decimal digits map to distinct characters. -/
theorem digitToChar_injOn : ∀ d₁ < 10, ∀ d₂ < 10, digitToChar d₁ = digitToChar d₂ → d₁ = d₂ := by
  decide

/-- Lists of decimal digits mapping to the same characters are equal. -/
theorem map_digitToChar_inj : ∀ (l₁ l₂ : List Nat), (∀ d ∈ l₁, d < 10) → (∀ d ∈ l₂, d < 10) →
    l₁.map digitToChar = l₂.map digitToChar → l₁ = l₂ := by
  intro l₁
  induction l₁ with
  | nil => intro l₂ _ _ h; cases l₂ <;> simp_all
  | cons a t ih =>
    intro l₂ h₁ h₂ h
    cases l₂ with
    | nil => simp_all
    | cons b t₂ =>
      simp only [List.map_cons, List.cons.injEq] at h
      have hab : a = b :=
        digitToChar_injOn a (h₁ a (by simp)) b (h₂ b (by simp)) h.1
      subst hab
      have ht : t = t₂ :=
        ih t₂ (fun d hd => h₁ d (by simp [hd])) (fun d hd => h₂ d (by simp [hd])) h.2
      rw [ht]

/-- Every entry of the reversed decimal digit expansion is a digit. -/
theorem digits_bounded (n : Nat) : ∀ d ∈ (Nat.digits 10 n).reverse, d < 10 :=
  fun _ hd => Nat.digits_lt_base (by norm_num) (List.mem_reverse.mp hd)

/-- Two numbers with the same rendered digit expansion are equal. -/
theorem digits_rev_map_inj {m n : Nat}
    (h : ((Nat.digits 10 m).reverse).map digitToChar =
      ((Nat.digits 10 n).reverse).map digitToChar) :
    m = n := by
  have hrev : (Nat.digits 10 m).reverse = (Nat.digits 10 n).reverse :=
    map_digitToChar_inj _ _ (digits_bounded m) (digits_bounded n) h
  have hd : Nat.digits 10 m = Nat.digits 10 n := by
    have := congrArg List.reverse hrev
    simpa using this
  exact Nat.digits_inj_iff.mp hd

/-- A nonzero number never renders as the single character zero. -/
theorem digits_rev_map_ne_zeroStr {n : Nat} (hn : n ≠ 0) :
    ((Nat.digits 10 n).reverse).map digitToChar ≠ ['0'] := by
  intro h
  have h0 : ((Nat.digits 10 n).reverse).map digitToChar = [(0 : Nat)].map digitToChar := by
    simpa [digitToChar] using h
  have hrev : (Nat.digits 10 n).reverse = [(0 : Nat)] :=
    map_digitToChar_inj _ _ (digits_bounded n) (by simp) h0
  have hdig : Nat.digits 10 n = [0] := by
    have := congrArg List.reverse hrev
    simpa using this
  have hofd := Nat.ofDigits_digits 10 n
  rw [hdig] at hofd
  simp [Nat.ofDigits] at hofd
  exact hn hofd.symm

/-- The decimal index encoding is injective. -/
theorem natToDecimal_injective : Function.Injective natToDecimal := by
  intro m n h
  unfold natToDecimal at h
  by_cases hm : m = 0 <;> by_cases hn : n = 0
  · omega
  · exfalso
    rw [if_pos hm, if_neg hn] at h
    have h' := congrArg String.data h
    exact digits_rev_map_ne_zeroStr hn (by simpa using h'.symm)
  · exfalso
    rw [if_neg hm, if_pos hn] at h
    have h' := congrArg String.data h
    exact digits_rev_map_ne_zeroStr hm (by simpa using h')
  · rw [if_neg hm, if_neg hn] at h
    have h' := congrArg String.data h
    exact digits_rev_map_inj (by simpa using h')

/-- For a fixed logical key, distinct replica indices give distinct
replica keys. -/
theorem replicaKey_injective (key : String) : Function.Injective (replicaKey key) := by
  intro i j h
  apply natToDecimal_injective
  have h' := congrArg String.data h
  simp only [replicaKey, String.data_append] at h'
  have hc := List.append_cancel_left h'
  exact String.ext hc

/-! ## Claim theorems -/

/-- C1: For a well-formed KeySplitRoute configuration whose `replicas`
field holds the int64 `i` (and whose destination is buildable),
`makeKeySplitRoute` succeeds exactly when `i` lies in [2, 1000]; any
out-of-bound value yields a construction-time `checkLogic` error. -/
theorem makeKeySplitRoute_replicas_bounds {RH : Type} (create : Dyn → Except String RH)
    (d : Dyn) (b : Bool) (i : Int) (rh : RH)
    (hlo : -(2 ^ 63) ≤ i) (hhi : i < 2 ^ 63) (hc : create d = .ok rh) :
    (makeKeySplitRoute create
        (.obj [("destination", d), ("replicas", .int i), ("all_sync", .bool b)])).succeeded = true
      ↔ (2 ≤ i ∧ i ≤ 1000) := by
  have hsz := sizeTOfInt_int i (by omega) (by omega)
  unfold makeKeySplitRoute
  rw [makeKeySplitRouteTraced_wf, hc]
  simp only [kMinReplicaCount, kMaxReplicaCount]
  split_ifs with h1 h2
  · simp only [Except.succeeded]
    constructor
    · intro h; exact absurd h (by simp)
    · intro h; exfalso; omega
  · simp only [Except.succeeded]
    constructor
    · intro h; exact absurd h (by simp)
    · intro h; exfalso; omega
  · simp only [Except.succeeded]
    constructor
    · intro _; constructor <;> omega
    · intro _; trivial

/-- Witness for C1: `replicas = 1000` succeeds. -/
theorem makeKeySplitRoute_replicas_bounds_witness :
    (makeKeySplitRoute (fun _ => Except.ok PUnit.unit)
        (.obj [("destination", .str "PoolRoute"), ("replicas", .int 1000),
          ("all_sync", .bool true)])).succeeded = true :=
  (makeKeySplitRoute_replicas_bounds (fun _ => Except.ok PUnit.unit) (.str "PoolRoute")
    true 1000 PUnit.unit (by norm_num) (by norm_num) rfl).mpr (by norm_num)

/-- C4: Construction requires an object carrying `destination`, `replicas`
(an integer) and `all_sync` (a boolean); each missing or mistyped field is
a construction error whose `checkLogic` message names that field. -/
theorem makeKeySplitRoute_malformed {RH : Type} (create : Dyn → Except String RH)
    (fields : List (String × Dyn)) :
    (∀ j : Dyn, j.isObject = false →
      makeKeySplitRoute create j = .error "KeySplitRoute should be an object") ∧
    (fields.lookup "destination" = none →
      makeKeySplitRoute create (.obj fields) = .error "KeySplitRoute: no destination route") ∧
    ((fields.lookup "destination").isSome = true → fields.lookup "replicas" = none →
      makeKeySplitRoute create (.obj fields) = .error "KeySplitRoute: no replicas specified") ∧
    ((fields.lookup "destination").isSome = true → (fields.lookup "replicas").isSome = true →
      fields.lookup "all_sync" = none →
      makeKeySplitRoute create (.obj fields) = .error "KeySplitRoute: all_sync not specified") ∧
    ((fields.lookup "destination").isSome = true → (fields.lookup "replicas").isSome = true →
      (fields.lookup "all_sync").isSome = true →
      ((Dyn.obj fields).getField "replicas").isInt = false →
      makeKeySplitRoute create (.obj fields) =
        .error "KeySplitRoute: replicas is not an integer") ∧
    ((fields.lookup "destination").isSome = true → (fields.lookup "replicas").isSome = true →
      (fields.lookup "all_sync").isSome = true →
      ((Dyn.obj fields).getField "replicas").isInt = true →
      ((Dyn.obj fields).getField "all_sync").isBool = false →
      makeKeySplitRoute create (.obj fields) =
        .error "KeySplitRoute: all_sync is not a boolean") := by
  refine ⟨?_, ?_, ?_, ?_, ?_, ?_⟩
  · intro j hj
    unfold makeKeySplitRoute makeKeySplitRouteTraced
    rw [if_pos hj]
  · intro h
    unfold makeKeySplitRoute makeKeySplitRouteTraced
    simp [Dyn.isObject, Dyn.count, h]
  · intro hd h
    rw [Option.isSome_iff_exists] at hd
    obtain ⟨vd, hd⟩ := hd
    unfold makeKeySplitRoute makeKeySplitRouteTraced
    simp [Dyn.isObject, Dyn.count, h, hd]
  · intro hd hr h
    rw [Option.isSome_iff_exists] at hd hr
    obtain ⟨vd, hd⟩ := hd
    obtain ⟨vr, hr⟩ := hr
    unfold makeKeySplitRoute makeKeySplitRouteTraced
    simp [Dyn.isObject, Dyn.count, h, hd, hr]
  · intro hd hr ha h
    rw [Option.isSome_iff_exists] at hd hr ha
    obtain ⟨vd, hd⟩ := hd
    obtain ⟨vr, hr⟩ := hr
    obtain ⟨va, ha⟩ := ha
    unfold makeKeySplitRoute makeKeySplitRouteTraced
    simp [Dyn.isObject, Dyn.count, Dyn.getField, hd, hr, ha]
    simp [Dyn.getField, hr] at h
    simp [h]
  · intro hd hr ha hint h
    rw [Option.isSome_iff_exists] at hd hr ha
    obtain ⟨vd, hd⟩ := hd
    obtain ⟨vr, hr⟩ := hr
    obtain ⟨va, ha⟩ := ha
    unfold makeKeySplitRoute makeKeySplitRouteTraced
    simp [Dyn.getField, hr] at hint
    simp [Dyn.getField, ha] at h
    simp [Dyn.isObject, Dyn.count, Dyn.getField, hd, hr, ha, hint, h]

/-- Witness for C4: the empty object fails naming `destination`. -/
theorem makeKeySplitRoute_malformed_witness :
    makeKeySplitRoute (fun _ => Except.ok PUnit.unit) (Dyn.obj []) =
      .error "KeySplitRoute: no destination route" :=
  (makeKeySplitRoute_malformed (fun _ => Except.ok PUnit.unit) []).2.1 rfl

/-- C9: A negative int64 `replicas` value wraps through the size_t
conversion to a value above 1000, so construction fails, and it fails on
the upper-bound check ("no more than 1000 replicas"), not the lower-bound
check. -/
theorem makeKeySplitRoute_negative_replicas {RH : Type} (create : Dyn → Except String RH)
    (d : Dyn) (b : Bool) (i : Int)
    (hlo : -(2 ^ 63) ≤ i) (hneg : i < 0) :
    1000 < sizeTOfInt i ∧
    makeKeySplitRoute create
        (.obj [("destination", d), ("replicas", .int i), ("all_sync", .bool b)]) =
      .error "KeySplitRoute: there should no more than 1000 replicas" := by
  have hsz := sizeTOfInt_int i (by omega) (by omega)
  have hgt : 1000 < sizeTOfInt i := by omega
  refine ⟨hgt, ?_⟩
  unfold makeKeySplitRoute
  rw [makeKeySplitRouteTraced_wf]
  simp only [kMinReplicaCount, kMaxReplicaCount]
  rw [if_neg (by omega), if_pos hgt]

/-- Witness for C9: `replicas = -1` fails on the upper-bound message. -/
theorem makeKeySplitRoute_negative_replicas_witness :
    1000 < sizeTOfInt (-1) ∧
    makeKeySplitRoute (fun _ => Except.ok PUnit.unit)
        (.obj [("destination", .str "PoolRoute"), ("replicas", .int (-1)),
          ("all_sync", .bool false)]) =
      .error "KeySplitRoute: there should no more than 1000 replicas" :=
  makeKeySplitRoute_negative_replicas (fun _ => Except.ok PUnit.unit) (.str "PoolRoute")
    false (-1) (by norm_num) (by norm_num)

/-- C10: Every validation check runs before `factory.create`: whenever
a configuration fails validation (it fails even under a factory that
always succeeds), the factory receives no call at all — the trace of
`factory.create` invocations is empty — and the resulting error does not
depend on the factory. -/
theorem makeKeySplitRoute_validates_before_create {RH : Type} (create : Dyn → Except String RH)
    (j : Dyn) (e : String)
    (h : makeKeySplitRoute (fun _ => Except.ok PUnit.unit) j = .error e) :
    (makeKeySplitRouteTraced create j).2 = [] ∧ makeKeySplitRoute create j = .error e := by
  unfold makeKeySplitRoute makeKeySplitRouteTraced at h ⊢
  split_ifs at h ⊢ <;> simp_all
  split_ifs at h ⊢ <;> simp_all

/-- Witness for C10: a non-object configuration constructs no child even
under a factory that reports being called by failing loudly. -/
theorem makeKeySplitRoute_validates_before_create_witness :
    (makeKeySplitRouteTraced
        (fun _ => (Except.error "child was built" : Except String PUnit)) (Dyn.int 5)).2 = [] ∧
    makeKeySplitRoute (fun _ => (Except.error "child was built" : Except String PUnit))
        (Dyn.int 5) = .error "KeySplitRoute should be an object" :=
  makeKeySplitRoute_validates_before_create
    (fun _ => (Except.error "child was built" : Except String PUnit)) (Dyn.int 5)
    "KeySplitRoute should be an object" rfl

/-- C2: End-to-end through a single direct (external) connection: a `set`
of key "hello" with value "world" delivers exactly one `STORED` reply to
the callback, and a subsequent `get` of "hello" on the same connection
delivers a `FOUND` reply whose payload is "world". -/
theorem externalConnection_set_get (opts : ConnectionOptions) (sel : Nat) (st : Store) :
    (sendRequestOne singleServerBackend sel (.base (.external opts)) (.set "hello" "world") st).1
      = [⟨.stored, none⟩] ∧
    (sendRequestOne singleServerBackend sel (.base (.external opts)) (.get "hello")
        (sendRequestOne singleServerBackend sel (.base (.external opts))
          (.set "hello" "world") st).2).1
      = [⟨.found, some "world"⟩] := by
  constructor <;>
    simp [sendRequestOne, sendBase, singleServerBackend, memcacheBackendStep, List.lookup]

/-- C3: End-to-end through a 4-member pooled connection: a `set` of key
"pooled" with value "connection" via the pool yields `STORED`, and a `get`
of "pooled" via the same pool yields `FOUND` with payload "connection",
for every selection-policy choice (`sel1`, `sel2`) of the member serving
either call and every mix of external/internal members. -/
theorem pooledConnection_set_get (m0 m1 m2 m3 : BaseConn) (sel1 sel2 : Nat) (st : Store) :
    (sendRequestOne singleServerBackend sel1 (.pooled [m0, m1, m2, m3])
        (.set "pooled" "connection") st).1
      = [⟨.stored, none⟩] ∧
    (sendRequestOne singleServerBackend sel2 (.pooled [m0, m1, m2, m3]) (.get "pooled")
        (sendRequestOne singleServerBackend sel1 (.pooled [m0, m1, m2, m3])
          (.set "pooled" "connection") st).2).1
      = [⟨.found, some "connection"⟩] := by
  have h1 : sel1 % 4 = 0 ∨ sel1 % 4 = 1 ∨ sel1 % 4 = 2 ∨ sel1 % 4 = 3 := by omega
  have h2 : sel2 % 4 = 0 ∨ sel2 % 4 = 1 ∨ sel2 % 4 = 2 ∨ sel2 % 4 = 3 := by omega
  rcases h1 with h|h|h|h <;> rcases h2 with g|g|g|g <;>
    simp [sendRequestOne, sendBase, singleServerBackend, memcacheBackendStep, h, g, List.lookup]

/-- C5: For every request submitted via `sendRequestOne` on any connection
(external, internal, or pooled), over any backend behavior — including one
that faults — the callback is invoked exactly once, with a reply; a
backend fault is encoded as a local-error reply and never crosses the
callback channel as a thrown fault. -/
theorem sendRequestOne_exactly_one_reply (backend : Backend) (sel : Nat)
    (conn : MemcacheConnection) (req : Request) (st : Store) :
    ∃ r : Reply, (sendRequestOne backend sel conn req st).1 = [r] := by
  cases conn with
  | base c =>
    simp only [sendRequestOne, sendBase]
    rcases hb : backend c.target req st with f | ⟨r, st'⟩
    · exact ⟨localErrorReply, by simp⟩
    · exact ⟨r, by simp⟩
  | pooled members =>
    simp only [sendRequestOne]
    rcases hm : members[sel % members.length]? with _ | m
    · exact ⟨localErrorReply, by simp⟩
    · simp only [sendBase]
      rcases hb : backend m.target req st with f | ⟨r, st'⟩
      · exact ⟨localErrorReply, by simp⟩
      · exact ⟨r, by simp⟩

/-- C6: Read determinism: the replica index a read of key K selects is a
deterministic function of the key and the replica count alone — two
configurations agreeing on the replica count dispatch the identical single
derived request for K, whose index is the stable hash of K modulo N. -/
theorem keySplitReadDispatch_deterministic (cfg cfg' : KeySplitConfig) (key : String)
    (h : cfg.replicas = cfg'.replicas) :
    keySplitReadDispatch cfg key = keySplitReadDispatch cfg' key ∧
    keySplitReadDispatch cfg key = [replicaKey key (stableHash key % cfg.replicas)] ∧
    (keySplitReadDispatch cfg key).length = 1 := by
  unfold keySplitReadDispatch readReplicaIndex
  rw [h]
  exact ⟨rfl, rfl, rfl⟩

/-- Witness for C6: two configurations with 4 replicas and different
`allSync` dispatch the same single read request for "hello". -/
theorem keySplitReadDispatch_deterministic_witness :
    keySplitReadDispatch ⟨4, true⟩ "hello" = keySplitReadDispatch ⟨4, false⟩ "hello" ∧
    keySplitReadDispatch ⟨4, true⟩ "hello" =
      [replicaKey "hello" (stableHash "hello" % (4 : Nat))] ∧
    (keySplitReadDispatch ⟨4, true⟩ "hello").length = 1 :=
  keySplitReadDispatch_deterministic ⟨4, true⟩ ⟨4, false⟩ "hello" rfl

/-- C7: Mutating fan-out: a mutating request under replica count N
dispatches exactly N derived requests, the i-th carrying the replica key
logical-key ++ separator ++ i, and the N derived keys are pairwise
distinct. -/
theorem keySplitMutateDispatch_fanout (cfg : KeySplitConfig) (key : String) :
    (keySplitMutateDispatch cfg key).length = cfg.replicas ∧
    (∀ i, i < cfg.replicas →
      (keySplitMutateDispatch cfg key)[i]? =
        some (key ++ kMemcacheReplicaSeparator ++ natToDecimal i)) ∧
    (keySplitMutateDispatch cfg key).Nodup := by
  refine ⟨by simp [keySplitMutateDispatch], ?_, ?_⟩
  · intro i hi
    simp [keySplitMutateDispatch, replicaKey, hi]
  · unfold keySplitMutateDispatch
    exact (List.nodup_range cfg.replicas).map (replicaKey_injective key)

/-- Witness for C7: with 3 replicas, a mutation on "k" derives 3 requests
and the first goes to "k:0". -/
theorem keySplitMutateDispatch_fanout_witness :
    (keySplitMutateDispatch ⟨3, false⟩ "k").length = 3 ∧
    (keySplitMutateDispatch ⟨3, false⟩ "k")[0]? = some "k:0" := by
  have h := keySplitMutateDispatch_fanout ⟨3, false⟩ "k"
  refine ⟨h.1, ?_⟩
  rw [h.2.1 0 (by decide)]
  decide

/-- C8: Under `allSync = false`, the caller's reply to a mutating request
is exactly the reply of the derived request to replica 0 (the primary);
the outcomes of the non-primary derived requests are never surfaced — two
destinations agreeing on the primary derived request yield the same
caller-visible reply however the non-primary requests fare. -/
theorem keySplitMutateReply_primary_only (cfg : KeySplitConfig) (key : String)
    (serve serve' : String → Reply)
    (_hsync : cfg.allSync = false)
    (hagree : serve (replicaKey key 0) = serve' (replicaKey key 0)) :
    keySplitMutateReply cfg serve key = serve (replicaKey key 0) ∧
    keySplitMutateReply cfg serve key = keySplitMutateReply cfg serve' key := by
  unfold keySplitMutateReply
  exact ⟨rfl, hagree⟩

/-- Witness for C8: a destination on which every non-primary replica write
fails yields the same caller reply as one on which they all succeed. -/
theorem keySplitMutateReply_primary_only_witness :
    keySplitMutateReply ⟨2, false⟩ (fun _ => ⟨.stored, none⟩) "k" =
      (fun _ => (⟨.stored, none⟩ : Reply)) (replicaKey "k" 0) ∧
    keySplitMutateReply ⟨2, false⟩ (fun _ => ⟨.stored, none⟩) "k" =
      keySplitMutateReply ⟨2, false⟩
        (fun s => if s = "k:0" then ⟨.stored, none⟩ else ⟨.localError, none⟩) "k" :=
  keySplitMutateReply_primary_only ⟨2, false⟩ "k" (fun _ => ⟨.stored, none⟩)
    (fun s => if s = "k:0" then ⟨.stored, none⟩ else ⟨.localError, none⟩) rfl (by decide)
